import Mathlib

/-!
Shallow embedding of the WireGuard tunnel lifecycle controllers of this
repository: scripts/start_wireguard.py (the Activation Controller) and
scripts/stop_wireguard.py (the Deactivation Controller).

Modelling conventions.

External effects are supplied as an explicit environment: the result of the
probe (wg show), of the actuator (wg-quick up / wg-quick down), of the
replication oracle (midclt call core.get_jobs, including the possibility that
the subprocess fails or its output is malformed, modelled as Except.error),
whether the resolved configuration file exists on disk, and whether the user
interrupts a given sleep (KeyboardInterrupt).

The polling loop of the Deactivation Controller is embedded with an idealized
integer clock: polls and probes take zero time and a sleep of s seconds
advances the elapsed counter by exactly s, so elapsed time equals the sum of
the completed sleep durations and the Python truncation int(time.time() -
start_time) is the identity.

Process exit codes: argparse parser.error exits with status 2; an uncaught
Python exception (the oracle query failing) exits with status 1; sys.exit(0)
and sys.exit(1) are taken literally.
-/

namespace TruenasWG

/-- Python truthiness of an optional string CLI argument: argparse leaves an
unsupplied flag as None (here none), and an empty string is also falsy, so
the check `not args.interface and not args.config` fires exactly when both
are none or empty. -/
def truthy : Option String → Bool
  | none => false
  | some s => !s.isEmpty

/-- Index of the last dot in a list of characters, if any. -/
def lastDotAux : List Char → Option Nat
  | [] => none
  | c :: cs =>
    match lastDotAux cs with
    | some j => some (j + 1)
    | none => if c = '.' then some 0 else none

/-- Final path component, as pathlib computes Path.name: trailing and
repeated separators are ignored. -/
def pathName (p : String) : String :=
  (((p.splitOn "/").filter (fun s => !s.isEmpty)).getLastD "")

/-- Python pathlib Path.stem: the final component without its last suffix.
CPython keeps the whole name when the last dot is the first character or the
last character of the name. -/
def pathStem (p : String) : String :=
  let base := pathName p
  match lastDotAux base.toList with
  | some idx =>
    if 0 < idx ∧ idx < base.length - 1 then base.take idx else base
  | none => base

/-- The string handed to Path(...).resolve() by both scripts:
`args.config if args.config else f"/etc/wireguard/{args.interface}.conf"`. -/
def chosenSource (iface config : Option String) : String :=
  if truthy config then config.getD ""
  else "/etc/wireguard/" ++ iface.getD "" ++ ".conf"

/-- CLI arguments of start_wireguard.py. -/
structure StartArgs where
  interface : Option String
  config : Option String
deriving DecidableEq

/-- Terminal outcome of an Activation Controller run. -/
inductive StartDecision where
  | configError
  | missingConfig
  | alreadyUp
  | activated
  | activationFailed
deriving DecidableEq, Repr

/-- Observable result of an Activation Controller run: process exit code,
decision, the tunnel name (config.stem) used for probe and actuator calls,
and how many probe (wg show) and actuator (wg-quick up) calls were made. -/
structure StartResult where
  exitCode : Nat
  decision : StartDecision
  tunnelName : String
  probeCalls : Nat
  activateCalls : Nat
deriving DecidableEq, Repr

/-- Environment of an Activation Controller run: Path.resolve as an abstract
path normalization, the filesystem existence check config.is_file(), the
probe answer of wg show for a given interface name, and whether wg-quick up
succeeds. -/
structure StartEnv where
  resolve : String → String
  fileExists : String → Bool
  interfaceUp : String → Bool
  activateSucceeds : Bool

/-- The main function of start_wireguard.py. -/
def startMain (args : StartArgs) (env : StartEnv) : StartResult :=
  if !truthy args.interface && !truthy args.config then
    ⟨2, .configError, "", 0, 0⟩
  else
    let cfg := env.resolve (chosenSource args.interface args.config)
    let name := pathStem cfg
    if !env.fileExists cfg then
      ⟨1, .missingConfig, name, 0, 0⟩
    else if env.interfaceUp name then
      ⟨0, .alreadyUp, name, 1, 0⟩
    else if env.activateSucceeds then
      ⟨0, .activated, name, 1, 1⟩
    else
      ⟨1, .activationFailed, name, 1, 1⟩

/-- How the polling loop of stop_wireguard.py was exited. -/
inductive LoopExitKind where
  | keptUp
  | oracleError
  | interrupted
  | timedOut
deriving DecidableEq, Repr

/-- Result of the polling loop: how it exited, how many oracle polls were
performed, the elapsed clock at exit, and the trace of completed sleeps as
pairs (elapsed time right before the sleep, sleep duration). -/
structure LoopOut where
  exit : LoopExitKind
  polls : Nat
  elapsed : Int
  sleeps : List (Int × Int)
deriving DecidableEq, Repr

/-- The polling loop of stop_wireguard.py main, lines 176 to 194, on the
idealized integer clock. oracle k is the outcome of the k-th call of
replication_running (Except.error when the midclt subprocess fails or its
output is malformed, otherwise the number of RUNNING replication jobs);
intr k tells whether the sleep following poll k is interrupted by the user. -/
def pollLoop (timeout interval : Int) (oracle : Nat → Except Unit Nat)
    (intr : Nat → Bool) (elapsed : Int) (polls : Nat) : LoopOut :=
  if _h : elapsed < timeout then
    match oracle polls with
    | .error _ => ⟨.oracleError, polls + 1, elapsed, []⟩
    | .ok count =>
      if 0 < count then
        ⟨.keptUp, polls + 1, elapsed, []⟩
      else
        if hs : 0 < min interval (timeout - elapsed) then
          if intr polls then
            ⟨.interrupted, polls + 1, elapsed, []⟩
          else
            let r := pollLoop timeout interval oracle intr
              (elapsed + min interval (timeout - elapsed)) (polls + 1)
            ⟨r.exit, r.polls, r.elapsed,
              (elapsed, min interval (timeout - elapsed)) :: r.sleeps⟩
        else
          ⟨.timedOut, polls + 1, elapsed, []⟩
  else
    ⟨.timedOut, polls, elapsed, []⟩
termination_by (timeout - elapsed).toNat
decreasing_by
  omega

/-- CLI arguments of stop_wireguard.py; timeout and interval are parsed with
type=int, so any integer, including non-positive ones, is accepted. -/
structure StopArgs where
  interface : Option String
  config : Option String
  timeout : Int
  interval : Int
deriving DecidableEq

/-- Terminal outcome of a Deactivation Controller run. -/
inductive StopDecision where
  | configError
  | alreadyDown
  | keptUp
  | oracleFailed
  | interrupted
  | tornDown
  | deactivationFailed
  | alreadyDownAtDeciding
deriving DecidableEq, Repr

/-- Observable result of a Deactivation Controller run: process exit code,
decision, the tunnel name (config.stem) used for probe and actuator calls,
and how many probe (wg show), oracle (midclt) and actuator (wg-quick down)
calls were made. -/
structure StopResult where
  exitCode : Nat
  decision : StopDecision
  tunnelName : String
  probeCalls : Nat
  oracleCalls : Nat
  deactivateCalls : Nat
deriving DecidableEq, Repr

/-- Environment of a Deactivation Controller run. fileExists is the
filesystem existence predicate, part of the environment even though
stop_wireguard.py never consults it (it performs no config.is_file check);
interfaceUpInitial and interfaceUpAtDeciding are the answers of the two
interface_is_up probes; oracleResult and interruptDuringSleep feed the
polling loop; deactivateSucceeds tells whether wg-quick down succeeds. -/
structure StopEnv where
  resolve : String → String
  fileExists : String → Bool
  interfaceUpInitial : Bool
  oracleResult : Nat → Except Unit Nat
  interruptDuringSleep : Nat → Bool
  interfaceUpAtDeciding : Bool
  deactivateSucceeds : Bool

/-- The main function of stop_wireguard.py. -/
def stopMain (args : StopArgs) (env : StopEnv) : StopResult :=
  if !truthy args.interface && !truthy args.config then
    ⟨2, .configError, "", 0, 0, 0⟩
  else
    let cfg := env.resolve (chosenSource args.interface args.config)
    let name := pathStem cfg
    if !env.interfaceUpInitial then
      ⟨0, .alreadyDown, name, 1, 0, 0⟩
    else
      let r := pollLoop args.timeout args.interval env.oracleResult
        env.interruptDuringSleep 0 0
      match r.exit with
      | .keptUp => ⟨0, .keptUp, name, 1, r.polls, 0⟩
      | .oracleError => ⟨1, .oracleFailed, name, 1, r.polls, 0⟩
      | .interrupted => ⟨0, .interrupted, name, 1, r.polls, 0⟩
      | .timedOut =>
        if env.interfaceUpAtDeciding then
          if env.deactivateSucceeds then
            ⟨0, .tornDown, name, 2, r.polls, 1⟩
          else
            ⟨1, .deactivationFailed, name, 2, r.polls, 1⟩
        else
          ⟨0, .alreadyDownAtDeciding, name, 2, r.polls, 0⟩

/-- Sample activation environment: resolve is the identity, the config file
exists, the interface is up, the actuator succeeds. -/
def envUp : StartEnv := ⟨id, fun _ => true, fun _ => true, true⟩

/-- Sample deactivation environment: tunnel up, every oracle poll reports
zero running jobs, no interrupts, tunnel still up at Deciding, actuator
succeeds. -/
def envAllIdle : StopEnv :=
  ⟨id, fun _ => true, true, fun _ => Except.ok 0, fun _ => false, true, true⟩

/-- Sample deactivation environment where every oracle query fails. -/
def envOracleFail : StopEnv :=
  ⟨id, fun _ => true, true, fun _ => Except.error (), fun _ => false, true, true⟩

/-- Sample deactivation environment where every oracle poll reports one
running replication job. -/
def envBusy : StopEnv :=
  ⟨id, fun _ => true, true, fun _ => Except.ok 1, fun _ => false, true, true⟩

/-- Sample deactivation environment where the tunnel is down from the
start. -/
def envDown : StopEnv :=
  ⟨id, fun _ => true, false, fun _ => Except.ok 0, fun _ => false, false, true⟩

/-- Sample deactivation environment where the user interrupts the first
sleep. -/
def envInterrupted : StopEnv :=
  ⟨id, fun _ => true, true, fun _ => Except.ok 0, fun _ => true, true, true⟩

/-- Invariant of the polling loop: the elapsed clock at exit never exceeds
the larger of the entry clock and the timeout, and every completed sleep has
the clamped duration min(interval, timeout - elapsed), is positive, and
lands at or before the timeout boundary. -/
theorem pollLoop_inv_aux (timeout interval : Int) (oracle : Nat → Except Unit Nat)
    (intr : Nat → Bool) :
    ∀ n elapsed polls, (timeout - elapsed).toNat ≤ n →
      (pollLoop timeout interval oracle intr elapsed polls).elapsed ≤ max elapsed timeout ∧
      ∀ p ∈ (pollLoop timeout interval oracle intr elapsed polls).sleeps,
        p.2 = min interval (timeout - p.1) ∧ 0 < p.2 ∧ p.1 + p.2 ≤ timeout := by
  intro n
  induction n with
  | zero =>
    intro elapsed polls hn
    have hnot : ¬ elapsed < timeout := by omega
    rw [pollLoop, dif_neg hnot]
    refine ⟨le_max_left _ _, ?_⟩
    intro p hp
    simp at hp
  | succ n ih =>
    intro elapsed polls hn
    by_cases h : elapsed < timeout
    · rw [pollLoop, dif_pos h]
      cases hor : oracle polls with
      | error e =>
        refine ⟨le_max_left _ _, ?_⟩
        intro p hp
        simp at hp
      | ok count =>
        by_cases hc : 0 < count
        · simp only [if_pos hc]
          refine ⟨le_max_left _ _, ?_⟩
          intro p hp
          simp at hp
        · simp only [if_neg hc]
          by_cases hs : 0 < min interval (timeout - elapsed)
          · rw [dif_pos hs]
            by_cases hi : intr polls
            · simp only [if_pos hi]
              refine ⟨le_max_left _ _, ?_⟩
              intro p hp
              simp at hp
            · simp only [if_neg hi]
              have hle : min interval (timeout - elapsed) ≤ timeout - elapsed :=
                min_le_right _ _
              have hrec := ih (elapsed + min interval (timeout - elapsed)) (polls + 1)
                (by omega)
              refine ⟨?_, ?_⟩
              · have hm : max (elapsed + min interval (timeout - elapsed)) timeout
                    = timeout := by omega
                calc (pollLoop timeout interval oracle intr
                        (elapsed + min interval (timeout - elapsed)) (polls + 1)).elapsed
                    ≤ max (elapsed + min interval (timeout - elapsed)) timeout := hrec.1
                  _ = timeout := hm
                  _ ≤ max elapsed timeout := le_max_right _ _
              · intro p hp
                simp only [List.mem_cons] at hp
                rcases hp with hp | hp
                · subst hp
                  exact ⟨rfl, hs, by omega⟩
                · exact hrec.2 p hp
          · rw [dif_neg hs]
            refine ⟨le_max_left _ _, ?_⟩
            intro p hp
            simp at hp
    · rw [pollLoop, dif_neg h]
      refine ⟨le_max_left _ _, ?_⟩
      intro p hp
      simp at hp

/-- When every oracle poll reports zero running jobs and no sleep is
interrupted, the polling loop always exits by timeout. -/
theorem pollLoop_allZero_aux (timeout interval : Int) (oracle : Nat → Except Unit Nat)
    (intr : Nat → Bool) (hz : ∀ k, oracle k = .ok 0) (hi : ∀ k, intr k = false) :
    ∀ n elapsed polls, (timeout - elapsed).toNat ≤ n →
      (pollLoop timeout interval oracle intr elapsed polls).exit = .timedOut := by
  intro n
  induction n with
  | zero =>
    intro e p hn
    have hnot : ¬ e < timeout := by omega
    rw [pollLoop, dif_neg hnot]
  | succ n ih =>
    intro e p hn
    by_cases h : e < timeout
    · rw [pollLoop, dif_pos h, hz p]
      simp only [lt_irrefl, if_false]
      by_cases hs : 0 < min interval (timeout - e)
      · rw [dif_pos hs]
        simp only [hi p, Bool.false_eq_true, if_false]
        have hle : min interval (timeout - e) ≤ timeout - e := min_le_right _ _
        exact ih (e + min interval (timeout - e)) (p + 1) (by omega)
      · rw [dif_neg hs]
    · rw [pollLoop, dif_neg h]

/-- When a poll that was actually performed reports a positive running-job
count, the loop stops at that very poll with exit kind keptUp. -/
theorem pollLoop_keptUp_aux (timeout interval : Int) (oracle : Nat → Except Unit Nat)
    (intr : Nat → Bool) (k c : Nat) (hc : oracle k = .ok c) (hpos : 0 < c) :
    ∀ n elapsed polls, (timeout - elapsed).toNat ≤ n → polls ≤ k →
      k < (pollLoop timeout interval oracle intr elapsed polls).polls →
      (pollLoop timeout interval oracle intr elapsed polls).exit = .keptUp ∧
      (pollLoop timeout interval oracle intr elapsed polls).polls = k + 1 := by
  intro n
  induction n with
  | zero =>
    intro e p hn hpk
    have hnot : ¬ e < timeout := by omega
    rw [pollLoop, dif_neg hnot]
    intro hk
    simp at hk
    omega
  | succ n ih =>
    intro e p hn hpk
    by_cases h : e < timeout
    · rw [pollLoop, dif_pos h]
      cases hor : oracle p with
      | error err =>
        intro hk
        simp at hk
        have hkp : k = p := by omega
        rw [hkp, hor] at hc
        exact absurd hc (by simp)
      | ok count =>
        by_cases hcount : 0 < count
        · simp only [if_pos hcount]
          intro hk
          have hkp : k = p := by omega
          exact ⟨trivial, by omega⟩
        · simp only [if_neg hcount]
          have hkne : k ≠ p := by
            intro hkp
            rw [hkp, hor] at hc
            have hcc : c = count := by
              injection hc with h2
              omega
            omega
          by_cases hs : 0 < min interval (timeout - e)
          · rw [dif_pos hs]
            by_cases hi : intr p
            · simp only [if_pos hi]
              intro hk
              omega
            · simp only [if_neg hi]
              intro hk
              have hle : min interval (timeout - e) ≤ timeout - e := min_le_right _ _
              have hgoal := ih (e + min interval (timeout - e)) (p + 1) (by omega)
                (by omega) hk
              exact hgoal
          · rw [dif_neg hs]
            intro hk
            simp at hk
            omega
    · rw [pollLoop, dif_neg h]
      intro hk
      simp at hk
      omega

/-- Characterization of a Deactivation Controller run that passes argument
validation and finds the tunnel up at the initial probe. -/
theorem stopMain_up (args : StopArgs) (env : StopEnv)
    (hargs : (!truthy args.interface && !truthy args.config) = false)
    (hup : env.interfaceUpInitial = true) :
    stopMain args env =
      (let name := pathStem (env.resolve (chosenSource args.interface args.config))
       let r := pollLoop args.timeout args.interval env.oracleResult
          env.interruptDuringSleep 0 0
       match r.exit with
       | .keptUp => ⟨0, .keptUp, name, 1, r.polls, 0⟩
       | .oracleError => ⟨1, .oracleFailed, name, 1, r.polls, 0⟩
       | .interrupted => ⟨0, .interrupted, name, 1, r.polls, 0⟩
       | .timedOut =>
         if env.interfaceUpAtDeciding then
           if env.deactivateSucceeds then ⟨0, .tornDown, name, 2, r.polls, 1⟩
           else ⟨1, .deactivationFailed, name, 2, r.polls, 1⟩
         else ⟨0, .alreadyDownAtDeciding, name, 2, r.polls, 0⟩) := by
  unfold stopMain
  rw [hargs, hup]
  simp

/-- C1: on the idealized clock, every completed sleep of the polling loop of
the Deactivation Controller has duration exactly min(intervalSeconds,
timeoutSeconds - elapsed), is positive, and lands at or before the timeout
boundary; and for a nonnegative timeout the cumulative elapsed time when the
loop exits is at most timeoutSeconds, so the loop never sleeps past the
total timeout budget. -/
theorem pollLoop_never_oversleeps (timeout interval : Int)
    (oracle : Nat → Except Unit Nat) (intr : Nat → Bool) :
    (∀ p ∈ (pollLoop timeout interval oracle intr 0 0).sleeps,
      p.2 = min interval (timeout - p.1) ∧ 0 < p.2 ∧ p.1 + p.2 ≤ timeout) ∧
    (0 ≤ timeout → (pollLoop timeout interval oracle intr 0 0).elapsed ≤ timeout) := by
  have h := pollLoop_inv_aux timeout interval oracle intr (timeout - 0).toNat 0 0 le_rfl
  refine ⟨h.2, fun ht => ?_⟩
  have h1 := h.1
  omega

theorem pollLoop_never_oversleeps_witness :
    (0:Int) ≤ 60 ∧
    (pollLoop 60 5 (fun _ => Except.ok 0) (fun _ => false) 0 0).elapsed ≤ 60 :=
  ⟨by decide,
   (pollLoop_never_oversleeps 60 5 (fun _ => Except.ok 0) (fun _ => false)).2 (by decide)⟩

/-- C2 counterexample: the claim that both controllers fail with a non-zero
exit before any probe call when the resolved configuration file does not
exist on disk is false for the Deactivation Controller. In an environment
whose filesystem has no file at all, the stop run still performs its initial
probe (one probe call) and exits with status 0: stop_wireguard.py contains
no is_file check. -/
theorem stop_missing_config_counterexample :
    (stopMain ⟨some "wg0", none, 60, 5⟩
        ⟨id, fun _ => false, false, fun _ => Except.ok 0, fun _ => false, false, true⟩).exitCode
        = 0 ∧
    (stopMain ⟨some "wg0", none, 60, 5⟩
        ⟨id, fun _ => false, false, fun _ => Except.ok 0, fun _ => false, false, true⟩).probeCalls
        = 1 ∧
    ((⟨id, fun _ => false, false, fun _ => Except.ok 0, fun _ => false, false,
        true⟩ : StopEnv).fileExists "/etc/wireguard/wg0.conf") = false := by
  decide

/-- C2 amended: supplying neither a truthy interface nor a truthy config is
a configuration error in both controllers, with exit status 2 before any
probe or actuator call; a resolved configuration file missing on disk makes
the Activation Controller exit 1 before any probe or actuator call; the
Deactivation Controller, however, performs no existence check at all: its
result is independent of the filesystem predicate. -/
theorem tunnelRef_resolution_amended :
    (∀ (args : StartArgs) (env : StartEnv),
      (!truthy args.interface && !truthy args.config) = true →
      startMain args env = ⟨2, .configError, "", 0, 0⟩) ∧
    (∀ (args : StopArgs) (env : StopEnv),
      (!truthy args.interface && !truthy args.config) = true →
      stopMain args env = ⟨2, .configError, "", 0, 0, 0⟩) ∧
    (∀ (args : StartArgs) (env : StartEnv),
      (!truthy args.interface && !truthy args.config) = false →
      env.fileExists (env.resolve (chosenSource args.interface args.config)) = false →
      startMain args env =
        ⟨1, .missingConfig,
         pathStem (env.resolve (chosenSource args.interface args.config)), 0, 0⟩) ∧
    (∀ (args : StopArgs) (r : String → String) (f1 f2 : String → Bool)
      (up : Bool) (o : Nat → Except Unit Nat) (i : Nat → Bool) (ud ds : Bool),
      stopMain args ⟨r, f1, up, o, i, ud, ds⟩ = stopMain args ⟨r, f2, up, o, i, ud, ds⟩) := by
  refine ⟨?_, ?_, ?_, ?_⟩
  · intro args env h
    unfold startMain
    rw [h]
    simp
  · intro args env h
    unfold stopMain
    rw [h]
    simp
  · intro args env h hf
    unfold startMain
    rw [h]
    simp [hf]
  · intro args r f1 f2 up o i ud ds
    rfl

theorem tunnelRef_resolution_amended_witness :
    startMain ⟨none, none⟩ envUp = ⟨2, .configError, "", 0, 0⟩ ∧
    stopMain ⟨none, none, 60, 5⟩ envAllIdle = ⟨2, .configError, "", 0, 0, 0⟩ ∧
    (startMain ⟨some "wg0", none⟩ ⟨id, fun _ => false, fun _ => true, true⟩).exitCode = 1 ∧
    (startMain ⟨some "wg0", none⟩ ⟨id, fun _ => false, fun _ => true, true⟩).probeCalls = 0 := by
  refine ⟨tunnelRef_resolution_amended.1 _ _ (by decide),
    tunnelRef_resolution_amended.2.1 _ _ (by decide), ?_, ?_⟩ <;>
    rw [tunnelRef_resolution_amended.2.2.1 ⟨some "wg0", none⟩
      ⟨id, fun _ => false, fun _ => true, true⟩ (by decide) rfl]

/-- C3: if the polling loop is exited because an oracle query failed (the
midclt subprocess errored or its output was malformed), the Deactivation
Controller exits with status 1, the decision records the oracle failure, no
deactivation actuator call is made, and the Deciding re-probe never happens
(exactly the one initial probe call is made). -/
theorem oracle_failure_fatal (args : StopArgs) (env : StopEnv)
    (hargs : (!truthy args.interface && !truthy args.config) = false)
    (hup : env.interfaceUpInitial = true)
    (herr : (pollLoop args.timeout args.interval env.oracleResult
      env.interruptDuringSleep 0 0).exit = .oracleError) :
    (stopMain args env).exitCode = 1 ∧
    (stopMain args env).decision = .oracleFailed ∧
    (stopMain args env).deactivateCalls = 0 ∧
    (stopMain args env).probeCalls = 1 := by
  simp [stopMain_up args env hargs hup, herr]

theorem oracle_failure_fatal_witness :
    (stopMain ⟨some "wg0", none, 60, 5⟩ envOracleFail).exitCode = 1 ∧
    (stopMain ⟨some "wg0", none, 60, 5⟩ envOracleFail).deactivateCalls = 0 := by
  have h := oracle_failure_fatal ⟨some "wg0", none, 60, 5⟩ envOracleFail
    (by decide) rfl (by simp [pollLoop, envOracleFail])
  exact ⟨h.1, h.2.2.1⟩

/-- C4: when every oracle poll reports zero running jobs and no sleep is
interrupted, the loop runs the full grace window; at Deciding, if the
re-probe still reports the tunnel active, the deactivate actuator is called
exactly once, with exit 0 and decision TornDown on success and exit 1 and
decision DeactivationFailed on failure; if the re-probe reports the tunnel
no longer active, the actuator is not called and the run exits 0. -/
theorem deciding_phase_deactivation (args : StopArgs) (env : StopEnv)
    (hargs : (!truthy args.interface && !truthy args.config) = false)
    (hup : env.interfaceUpInitial = true)
    (hz : ∀ k, env.oracleResult k = Except.ok 0)
    (hi : ∀ k, env.interruptDuringSleep k = false) :
    (env.interfaceUpAtDeciding = true →
      (stopMain args env).deactivateCalls = 1 ∧
      (env.deactivateSucceeds = true →
        (stopMain args env).exitCode = 0 ∧ (stopMain args env).decision = .tornDown) ∧
      (env.deactivateSucceeds = false →
        (stopMain args env).exitCode = 1 ∧
        (stopMain args env).decision = .deactivationFailed)) ∧
    (env.interfaceUpAtDeciding = false →
      (stopMain args env).deactivateCalls = 0 ∧
      (stopMain args env).exitCode = 0 ∧
      (stopMain args env).decision = .alreadyDownAtDeciding) := by
  have hto : (pollLoop args.timeout args.interval env.oracleResult
      env.interruptDuringSleep 0 0).exit = .timedOut :=
    pollLoop_allZero_aux _ _ _ _ hz hi _ 0 0 le_rfl
  constructor
  · intro hd
    cases hds : env.deactivateSucceeds with
    | true => simp [stopMain_up args env hargs hup, hto, hd, hds]
    | false => simp [stopMain_up args env hargs hup, hto, hd, hds]
  · intro hd
    simp [stopMain_up args env hargs hup, hto, hd]

theorem deciding_phase_deactivation_witness :
    (stopMain ⟨some "wg0", none, 60, 5⟩ envAllIdle).deactivateCalls = 1 ∧
    (stopMain ⟨some "wg0", none, 60, 5⟩ envAllIdle).exitCode = 0 := by
  have h := deciding_phase_deactivation ⟨some "wg0", none, 60, 5⟩ envAllIdle
    (by decide) rfl (fun _ => rfl) (fun _ => rfl)
  exact ⟨(h.1 rfl).1, ((h.1 rfl).2.1 rfl).1⟩

/-- C5: if a poll that the loop actually performed reports at least one
running replication job, the loop stops at exactly that poll with exit kind
keptUp, and the run exits with status 0, decision KeptUp, and no deactivate
actuator call. -/
theorem activity_keeps_tunnel_up (args : StopArgs) (env : StopEnv)
    (hargs : (!truthy args.interface && !truthy args.config) = false)
    (hup : env.interfaceUpInitial = true) (k c : Nat)
    (hc : env.oracleResult k = Except.ok c) (hpos : 0 < c)
    (hk : k < (pollLoop args.timeout args.interval env.oracleResult
      env.interruptDuringSleep 0 0).polls) :
    (pollLoop args.timeout args.interval env.oracleResult
      env.interruptDuringSleep 0 0).exit = .keptUp ∧
    (pollLoop args.timeout args.interval env.oracleResult
      env.interruptDuringSleep 0 0).polls = k + 1 ∧
    (stopMain args env).exitCode = 0 ∧
    (stopMain args env).decision = .keptUp ∧
    (stopMain args env).deactivateCalls = 0 := by
  have h := pollLoop_keptUp_aux args.timeout args.interval env.oracleResult
    env.interruptDuringSleep k c hc hpos ((args.timeout - 0).toNat) 0 0 le_rfl
    (Nat.zero_le k) hk
  refine ⟨h.1, h.2, ?_, ?_, ?_⟩ <;>
    simp [stopMain_up args env hargs hup, h.1]

theorem activity_keeps_tunnel_up_witness :
    (stopMain ⟨some "wg0", none, 60, 5⟩ envBusy).exitCode = 0 ∧
    (stopMain ⟨some "wg0", none, 60, 5⟩ envBusy).deactivateCalls = 0 := by
  have h := activity_keeps_tunnel_up ⟨some "wg0", none, 60, 5⟩ envBusy
    (by decide) rfl 0 1 rfl (by decide) (by simp [pollLoop, envBusy])
  exact ⟨h.2.2.1, h.2.2.2.2⟩

/-- C6: if the initial probe reports the interface not active, the
Deactivation Controller exits with status 0 after exactly that one probe,
with zero oracle queries and zero actuator calls. -/
theorem initial_down_short_circuit (args : StopArgs) (env : StopEnv)
    (hargs : (!truthy args.interface && !truthy args.config) = false)
    (hdown : env.interfaceUpInitial = false) :
    stopMain args env =
      ⟨0, .alreadyDown,
       pathStem (env.resolve (chosenSource args.interface args.config)), 1, 0, 0⟩ := by
  unfold stopMain
  rw [hargs, hdown]
  simp

theorem initial_down_short_circuit_witness :
    (stopMain ⟨some "wg0", none, 60, 5⟩ envDown).oracleCalls = 0 ∧
    (stopMain ⟨some "wg0", none, 60, 5⟩ envDown).deactivateCalls = 0 ∧
    (stopMain ⟨some "wg0", none, 60, 5⟩ envDown).exitCode = 0 := by
  rw [initial_down_short_circuit ⟨some "wg0", none, 60, 5⟩ envDown (by decide) rfl]
  exact ⟨rfl, rfl, rfl⟩

/-- C7: when the probe of the Activation Controller reports the interface
active, the activate actuator is never called and the run exits with status
0 and decision AlreadyUp, so re-running the controller on an already active
tunnel performs no actuation. -/
theorem activation_idempotent (args : StartArgs) (env : StartEnv)
    (hargs : (!truthy args.interface && !truthy args.config) = false)
    (hfile : env.fileExists (env.resolve (chosenSource args.interface args.config)) = true)
    (hu : env.interfaceUp
      (pathStem (env.resolve (chosenSource args.interface args.config))) = true) :
    startMain args env =
      ⟨0, .alreadyUp,
       pathStem (env.resolve (chosenSource args.interface args.config)), 1, 0⟩ := by
  unfold startMain
  rw [hargs]
  simp [hfile, hu]

theorem activation_idempotent_witness :
    (startMain ⟨some "wg0", none⟩ envUp).activateCalls = 0 ∧
    (startMain ⟨some "wg0", none⟩ envUp).exitCode = 0 := by
  rw [activation_idempotent ⟨some "wg0", none⟩ envUp (by decide) rfl rfl]
  exact ⟨rfl, rfl⟩

/-- C8: if the polling loop is exited because the user interrupted a sleep
(KeyboardInterrupt), the Deactivation Controller exits with status 0 and the
deactivate actuator is never called: interruption is not a teardown
trigger. -/
theorem interrupt_no_teardown (args : StopArgs) (env : StopEnv)
    (hargs : (!truthy args.interface && !truthy args.config) = false)
    (hup : env.interfaceUpInitial = true)
    (hint : (pollLoop args.timeout args.interval env.oracleResult
      env.interruptDuringSleep 0 0).exit = .interrupted) :
    (stopMain args env).exitCode = 0 ∧
    (stopMain args env).decision = .interrupted ∧
    (stopMain args env).deactivateCalls = 0 := by
  simp [stopMain_up args env hargs hup, hint]

theorem interrupt_no_teardown_witness :
    (stopMain ⟨some "wg0", none, 60, 5⟩ envInterrupted).exitCode = 0 ∧
    (stopMain ⟨some "wg0", none, 60, 5⟩ envInterrupted).deactivateCalls = 0 := by
  have h := interrupt_no_teardown ⟨some "wg0", none, 60, 5⟩ envInterrupted
    (by decide) rfl (by simp [pollLoop, envInterrupted])
  exact ⟨h.1, h.2.2⟩

/-- C9: when both flags are supplied with a truthy config value, this is not
an error in either controller: the config path is the supplied one, both
runs are completely independent of the interface value, neither run is a
configuration error, and the tunnel name used by both controllers is the
base name of the resolved config file without its extension. -/
theorem config_flag_precedence (i1 i2 : Option String) (c : String)
    (hc : c.isEmpty = false) (senv : StartEnv) (denv : StopEnv) (t v : Int) :
    chosenSource i1 (some c) = c ∧
    startMain ⟨i1, some c⟩ senv = startMain ⟨i2, some c⟩ senv ∧
    stopMain ⟨i1, some c, t, v⟩ denv = stopMain ⟨i2, some c, t, v⟩ denv ∧
    (startMain ⟨i1, some c⟩ senv).decision ≠ .configError ∧
    (stopMain ⟨i1, some c, t, v⟩ denv).decision ≠ .configError ∧
    (startMain ⟨i1, some c⟩ senv).tunnelName = pathStem (senv.resolve c) ∧
    (stopMain ⟨i1, some c, t, v⟩ denv).tunnelName = pathStem (denv.resolve c) := by
  have htc : truthy (some c) = true := by simp [truthy, hc]
  have hg1 : (!truthy i1 && !truthy (some c)) = false := by rw [htc]; simp
  have hg2 : (!truthy i2 && !truthy (some c)) = false := by rw [htc]; simp
  have hcs1 : chosenSource i1 (some c) = c := by simp [chosenSource, htc]
  have hcs2 : chosenSource i2 (some c) = c := by simp [chosenSource, htc]
  refine ⟨hcs1, ?_, ?_, ?_, ?_, ?_, ?_⟩
  · simp [startMain, hg1, hg2, hcs1, hcs2]
  · simp [stopMain, hg1, hg2, hcs1, hcs2]
  · simp only [startMain, hg1, Bool.false_eq_true, if_false, hcs1]
    repeat' split
    all_goals simp
  · simp only [stopMain, hg1, Bool.false_eq_true, if_false, hcs1]
    repeat' split
    all_goals simp
  · simp only [startMain, hg1, Bool.false_eq_true, if_false, hcs1]
    repeat' split
    all_goals simp
  · simp only [stopMain, hg1, Bool.false_eq_true, if_false, hcs1]
    repeat' split
    all_goals simp

theorem config_flag_precedence_witness :
    chosenSource (some "a") (some "wg1.conf") = "wg1.conf" ∧
    startMain ⟨some "a", some "wg1.conf"⟩ envUp =
      startMain ⟨none, some "wg1.conf"⟩ envUp := by
  have h := config_flag_precedence (some "a") none "wg1.conf" (by decide) envUp envDown 1 1
  exact ⟨h.1, h.2.1⟩

/-- C10: the polling loop is total for every integer timeout and interval
(pollLoop is a terminating function); in a run whose tunnel is up, a
non-positive timeout gives zero oracle polls and goes straight to the
Deciding re-probe (two probe calls), and a positive timeout with a
non-positive interval and a first poll reporting zero jobs gives exactly one
oracle poll before the clamped sleep computation breaks the loop into
Deciding. -/
theorem degenerate_timing_terminates (args : StopArgs) (env : StopEnv)
    (hargs : (!truthy args.interface && !truthy args.config) = false)
    (hup : env.interfaceUpInitial = true) :
    (args.timeout ≤ 0 →
      (stopMain args env).oracleCalls = 0 ∧ (stopMain args env).probeCalls = 2) ∧
    (0 < args.timeout → args.interval ≤ 0 → env.oracleResult 0 = Except.ok 0 →
      (stopMain args env).oracleCalls = 1 ∧ (stopMain args env).probeCalls = 2) := by
  constructor
  · intro ht
    have hto : pollLoop args.timeout args.interval env.oracleResult
        env.interruptDuringSleep 0 0 = ⟨.timedOut, 0, 0, []⟩ := by
      rw [pollLoop, dif_neg (by omega : ¬ (0:Int) < args.timeout)]
    cases hd : env.interfaceUpAtDeciding with
    | true =>
      cases hds : env.deactivateSucceeds with
      | true => simp [stopMain_up args env hargs hup, hto, hd, hds]
      | false => simp [stopMain_up args env hargs hup, hto, hd, hds]
    | false => simp [stopMain_up args env hargs hup, hto, hd]
  · intro ht hi hz0
    have hto : pollLoop args.timeout args.interval env.oracleResult
        env.interruptDuringSleep 0 0 = ⟨.timedOut, 1, 0, []⟩ := by
      have hns : ¬ 0 < min args.interval (args.timeout - 0) := by omega
      rw [pollLoop, dif_pos (by omega : (0:Int) < args.timeout), hz0]
      simp only [Nat.lt_irrefl, if_false, dif_neg hns]
    cases hd : env.interfaceUpAtDeciding with
    | true =>
      cases hds : env.deactivateSucceeds with
      | true => simp [stopMain_up args env hargs hup, hto, hd, hds]
      | false => simp [stopMain_up args env hargs hup, hto, hd, hds]
    | false => simp [stopMain_up args env hargs hup, hto, hd]

theorem degenerate_timing_terminates_witness :
    (stopMain ⟨some "wg0", none, 0, 5⟩ envAllIdle).oracleCalls = 0 ∧
    (stopMain ⟨some "wg0", none, 60, 0⟩ envAllIdle).oracleCalls = 1 := by
  have h1 := degenerate_timing_terminates ⟨some "wg0", none, 0, 5⟩ envAllIdle
    (by decide) rfl
  have h2 := degenerate_timing_terminates ⟨some "wg0", none, 60, 0⟩ envAllIdle
    (by decide) rfl
  exact ⟨(h1.1 (by decide)).1, (h2.2 (by decide) (by decide) rfl).1⟩

end TruenasWG
